import Mathlib

set_option maxRecDepth 8000

/-!
Verification development for an epoll-based FTP-like server and client
(`server/epoll_server.c`, `server/commands.c`, `client/epoll_client.c`).

The byte stream is modelled as `List Nat` (one `Nat` in `0..255` per octet).
Wire integers are 32-bit big-endian, exactly as produced by `htonl` and
consumed by `ntohl` on the C side.  The operating system is abstracted to a
predicate `fs : List Nat → Bool` telling whether `fopen(path, "wb")` succeeds
for a given path; file contents written so far are carried in the states.
-/

namespace FtpCore

/-- Big-endian 32-bit value from four bytes, as `ntohl` yields on the wire
order `b0 b1 b2 b3`. -/
def be32 (b0 b1 b2 b3 : Nat) : Nat :=
  ((b0 * 256 + b1) * 256 + b2) * 256 + b3

/-- Byte at index `i` of a buffer (0 when out of range, like reading the
zero-initialised remainder of a fixed C array). -/
def byteAt (bs : List Nat) (i : Nat) : Nat :=
  bs.getD i 0

/-- The C-string denoted by a byte buffer: the bytes before the first NUL. -/
def cstr (bs : List Nat) : List Nat :=
  bs.takeWhile (fun b => b ≠ 0)

/-- Decoded form of `FileChunkHeader` (fields already converted from network
byte order): `chunk_id`, `chunk_size`, `total_chunks`, `type`, and the raw
64-byte `filename` field. -/
structure FileChunkHeader where
  chunkId : Nat := 0
  chunkSize : Nat := 0
  totalChunks : Nat := 0
  htype : Nat := 0
  filename : List Nat := []
deriving Repr, DecidableEq

/-- Wire layout of `FileChunkHeader`: offsets 0,4,8,12 hold the four `u32`
fields big-endian, offsets 16..79 hold the filename bytes
(`sizeof(FileChunkHeader) = 80`, no padding). -/
def decodeHeader (bs : List Nat) : FileChunkHeader :=
  { chunkId := be32 (byteAt bs 0) (byteAt bs 1) (byteAt bs 2) (byteAt bs 3)
    chunkSize := be32 (byteAt bs 4) (byteAt bs 5) (byteAt bs 6) (byteAt bs 7)
    totalChunks := be32 (byteAt bs 8) (byteAt bs 9) (byteAt bs 10) (byteAt bs 11)
    htype := be32 (byteAt bs 12) (byteAt bs 13) (byteAt bs 14) (byteAt bs 15)
    filename := (bs.drop 16).take 64 }

/-- Big-endian encoding of a 32-bit value (for building concrete wire input). -/
def encU32 (n : Nat) : List Nat :=
  [n / 16777216 % 256, n / 65536 % 256, n / 256 % 256, n % 256]

/-- Pad a byte string with NULs to the fixed 64-byte filename field. -/
def padTo64 (bs : List Nat) : List Nat :=
  bs ++ List.replicate (64 - bs.length) 0

/-- Encode a header into its 80-byte wire form. -/
def encHeader (h : FileChunkHeader) : List Nat :=
  encU32 h.chunkId ++ encU32 h.chunkSize ++ encU32 h.totalChunks ++
    encU32 h.htype ++ padTo64 (h.filename.take 64)

/-- Split off one newline-terminated line: `some (line, rest)` if the buffer
contains a `\n` (byte 10), mirroring `strchr(buffer, '\n')`. -/
def splitLine : List Nat → Option (List Nat × List Nat)
  | [] => none
  | b :: rest =>
    if b = 10 then some ([], rest)
    else match splitLine rest with
      | none => none
      | some (l, r) => some (b :: l, r)

theorem splitLine_rest_lt : ∀ {bs l r : List Nat},
    splitLine bs = some (l, r) → r.length < bs.length := by
  intro bs
  induction bs with
  | nil => intro l r h; simp [splitLine] at h
  | cons b rest ih =>
    intro l r h
    simp only [splitLine] at h
    by_cases hb : b = 10
    · rw [if_pos hb] at h
      injection h with h
      injection h with h1 h2
      subst h2
      simp
    · rw [if_neg hb] at h
      cases hsl : splitLine rest with
      | none => rw [hsl] at h; cases h
      | some p =>
        obtain ⟨l', r'⟩ := p
        rw [hsl] at h
        injection h with h
        injection h with h1 h2
        subst h2
        have := ih hsl
        simp only [List.length_cons]
        omega

/-- Strip one trailing carriage return (byte 13), as both loops do before
dispatching a command line. -/
def stripCR (l : List Nat) : List Nat :=
  if l.getLast? = some 13 then l.dropLast else l

/-- Drain all complete newline-terminated lines from a buffer, returning the
(CR-stripped) lines in order and the leftover bytes, mirroring the
`while ((newline_pos = strchr(...)))` loops. -/
def drainLines (buf : List Nat) : List (List Nat) × List Nat :=
  match h : splitLine buf with
  | none => ([], buf)
  | some (l, r) =>
    let p := drainLines r
    (stripCR l :: p.1, p.2)
termination_by buf.length
decreasing_by exact splitLine_rest_lt h

/-! ## Server side (`server/epoll_server.c`) -/

/-- Observable events of the server handlers: frames sent to the peer
(`errInvalidHeader`, `errCannotCreate`, `successUploaded`, `errBufferOverflow`)
and console/log events (`detectedBinary` for the mode-switch printf,
`chunkReceived r e` for the `Received chunk %d/%d` printf, `closedFile` for the
`fclose` performed by `remove_client`, `commandDispatched` for a text command
handed to its handler). -/
inductive SrvMsg where
  | errInvalidHeader
  | errCannotCreate
  | successUploaded
  | errBufferOverflow
  | detectedBinary
  | chunkReceived (r e : Nat)
  | closedFile
  | commandDispatched (cmd : List Nat)
deriving Repr, DecidableEq

/-- Return code of the per-connection handlers: `ok` models `return 0`,
`disconnect` models `return -1` (the epoll loop then deletes, removes and
closes that client). -/
inductive SrvRes where
  | ok
  | disconnect
deriving Repr, DecidableEq

/-- The server's per-client state `client_info_t`.  `uploadContents` models
the bytes written so far to the upload file (the disk file), `uploadOpen`
models `upload_file != NULL`, `headerBuf` models the first
`bytes_in_buffer` bytes of `recv_buffer` while a header is being gathered. -/
structure ClientInfo where
  fd : Nat := 0
  buffer : List Nat := []
  state : Nat := 0
  uploadOpen : Bool := false
  uploadContents : List Nat := []
  uploadFilename : List Nat := []
  expectedChunks : Nat := 0
  receivedChunks : Nat := 0
  headerBuf : List Nat := []
  headerComplete : Bool := false
  currentHeader : FileChunkHeader := {}
  payloadRemaining : Nat := 0
deriving Repr, DecidableEq

/-- Result record of one handler invocation: post-state, emitted events,
return code. -/
structure SrvStep where
  st : ClientInfo
  msgs : List SrvMsg
  res : SrvRes
deriving Repr, DecidableEq

/-- The bytes "saved/" — the fixed storage prefix. -/
def savedDirBytes : List Nat := [115, 97, 118, 101, 100, 47]

/-- Destination path for an upload, from
`snprintf(full_path, ..., "saved/%s", filename)`: the storage prefix
concatenated with the header's filename, with no sanitisation
(`epoll_server.c:572`, `epoll_server.c:288`, `commands.c:81`). -/
def uploadDestPath (fname : List Nat) : List Nat :=
  savedDirBytes ++ fname

/-- Header validation of `handle_file_transfer` (`epoll_server.c:555`):
`chunk_size == 0 || total_chunks == 0 || chunk_size > 8192 ||
total_chunks > 2000000`. -/
def serverHeaderInvalid (h : FileChunkHeader) : Bool :=
  h.chunkSize = 0 ∨ h.totalChunks = 0 ∨ 8192 < h.chunkSize ∨ 2000000 < h.totalChunks

/-- The byte-consuming loop of `handle_file_transfer`
(`epoll_server.c:530-648`), fuelled.  Every loop iteration either consumes at
least one input byte or completes a zero-byte payload (possible only for an
unvalidated `chunk_size = 0`, which costs an 80-byte header first), so
`2 * |data| + 2` fuel always suffices; the wrapper below supplies it. -/
def srvLoop (fs : List Nat → Bool) : Nat → ClientInfo → List Nat → SrvStep
  | 0, st, _ => ⟨st, [], .ok⟩
  | fuel + 1, st, data =>
    if data = [] then ⟨st, [], .ok⟩
    else if st.headerComplete = false then
      -- header phase (epoll_server.c:533-593)
      let need := 80 - st.headerBuf.length
      let buf := st.headerBuf ++ data.take need
      let rest := data.drop need
      if buf.length < 80 then
        ⟨{ st with headerBuf := buf }, [], .ok⟩
      else
        let h := decodeHeader buf
        let st1 := { st with headerComplete := true, currentHeader := h, headerBuf := buf }
        if serverHeaderInvalid h then
          -- epoll_server.c:555-561: send error, state = 0, return -1
          ⟨{ st1 with state := 0 }, [.errInvalidHeader], .disconnect⟩
        else
          let st2 := { st1 with payloadRemaining := h.chunkSize }
          if h.chunkId = 0 then
            -- epoll_server.c:568-589: open saved/<filename>
            if fs (uploadDestPath (cstr h.filename)) then
              srvLoop fs fuel
                { st2 with
                  uploadOpen := true, uploadContents := [],
                  uploadFilename := cstr h.filename,
                  expectedChunks := h.totalChunks, receivedChunks := 0,
                  headerBuf := [] } rest
            else
              ⟨{ st2 with uploadOpen := false, state := 0 }, [.errCannotCreate], .disconnect⟩
          else
            srvLoop fs fuel { st2 with headerBuf := [] } rest
    else
      -- payload phase (epoll_server.c:595-647)
      let toCopy := min data.length st.payloadRemaining
      let written := data.take toCopy
      let rest := data.drop toCopy
      let st1 :=
        if st.uploadOpen then { st with uploadContents := st.uploadContents ++ written }
        else st
      let st2 := { st1 with payloadRemaining := st1.payloadRemaining - toCopy }
      if st2.payloadRemaining = 0 then
        let r := st2.receivedChunks + 1
        let e := st2.expectedChunks
        let st3 := { st2 with receivedChunks := r, headerComplete := false, headerBuf := [] }
        if e ≤ r then
          -- completion (epoll_server.c:622-644): close, send SUCCESS, reset, return 0
          ⟨{ st3 with
             uploadOpen := false, state := 0, payloadRemaining := 0,
             expectedChunks := 0, receivedChunks := 0, uploadFilename := [] },
            [.chunkReceived r e, .successUploaded], .ok⟩
        else
          let next := srvLoop fs fuel st3 rest
          ⟨next.st, .chunkReceived r e :: next.msgs, next.res⟩
      else
        ⟨st2, [], .ok⟩

/-- `handle_file_transfer` (`epoll_server.c:482-652`).  Empty input models
`recv` returning 0 (peer closed): the open file is closed, the state reset to
command mode and `-1` returned (`epoll_server.c:496-507`). -/
def handleFileTransfer (fs : List Nat → Bool) (st : ClientInfo) (data : List Nat) : SrvStep :=
  if data = [] then ⟨{ st with uploadOpen := false, state := 0 }, [], .disconnect⟩
  else srvLoop fs (2 * data.length + 2) st data

/-- The plausibility test that switches a command-mode connection into file
mode (`epoll_server.c:250-258`): at least a header's worth of bytes whose
decoded `chunk_size` is in `1..8192` and `total_chunks` in `1..2000000`.
Neither `chunk_id` nor the filename is examined. -/
def serverDetect (data : List Nat) : Bool :=
  80 ≤ data.length ∧
    (let h := decodeHeader data
     0 < h.chunkSize ∧ h.chunkSize ≤ 8192 ∧ 0 < h.totalChunks ∧ h.totalChunks ≤ 2000000)

/-- The inline chunk-processing loop run right after detection, still inside
`handle_client_data` (`epoll_server.c:263-341`).  Identical in structure to
`srvLoop` but it never validates a completed header, silently continues when
the destination file cannot be opened, and keeps consuming after a completed
upload.  It has no failure exit: the result code is always `ok`. -/
def detLoop (fs : List Nat → Bool) : Nat → ClientInfo → List Nat → SrvStep
  | 0, st, _ => ⟨st, [], .ok⟩
  | fuel + 1, st, data =>
    if data = [] then ⟨st, [], .ok⟩
    else if st.headerComplete = false then
      let need := 80 - st.headerBuf.length
      let buf := st.headerBuf ++ data.take need
      let rest := data.drop need
      if buf.length < 80 then
        ⟨{ st with headerBuf := buf }, [], .ok⟩
      else
        let h := decodeHeader buf
        let st1 :=
          { st with
            headerComplete := true, currentHeader := h,
            payloadRemaining := h.chunkSize, headerBuf := [] }
        if h.chunkId = 0 then
          -- epoll_server.c:284-298: fopen; on failure just continue
          if fs (uploadDestPath (cstr h.filename)) then
            detLoop fs fuel
              { st1 with
                uploadOpen := true, uploadContents := [],
                uploadFilename := cstr h.filename,
                expectedChunks := h.totalChunks, receivedChunks := 0 } rest
          else
            detLoop fs fuel { st1 with uploadOpen := false } rest
        else
          detLoop fs fuel st1 rest
    else
      let toCopy := min data.length st.payloadRemaining
      let written := data.take toCopy
      let rest := data.drop toCopy
      let st1 :=
        if st.uploadOpen then { st with uploadContents := st.uploadContents ++ written }
        else st
      let st2 := { st1 with payloadRemaining := st1.payloadRemaining - toCopy }
      if st2.payloadRemaining = 0 then
        let r := st2.receivedChunks + 1
        let e := st2.expectedChunks
        let st3 := { st2 with receivedChunks := r, headerComplete := false, headerBuf := [] }
        if e ≤ r then
          -- completion (epoll_server.c:319-338): unlike handle_file_transfer,
          -- the loop continues with the remaining bytes
          let st4 :=
            { st3 with
              uploadOpen := false, state := 0, payloadRemaining := 0,
              expectedChunks := 0, receivedChunks := 0, uploadFilename := [] }
          let next := detLoop fs fuel st4 rest
          ⟨next.st, .chunkReceived r e :: .successUploaded :: next.msgs, next.res⟩
        else
          let next := detLoop fs fuel st3 rest
          ⟨next.st, .chunkReceived r e :: next.msgs, next.res⟩
      else
        ⟨st2, [], .ok⟩

/-- The `upload` command bytes; `process_client_command` matches them with
`strncmp(command, "upload", 6) == 0` (`epoll_server.c:413`). -/
def uploadCmdBytes : List Nat := [117, 112, 108, 111, 97, 100]

/-- `process_client_command` (`epoll_server.c:409-479`), reduced to its
effect on the connection: an `upload` command switches the connection to file
mode and sends nothing; everything else is dispatched to its handler (the
out-of-scope filesystem collaborators), recorded as one event. -/
def processCommand (mode : Nat) (cmd : List Nat) : Nat × List SrvMsg :=
  if cmd.take 6 = uploadCmdBytes then (1, [])
  else (mode, [.commandDispatched cmd])

/-- Run `process_client_command` on each complete line drained from the
command buffer, in order. -/
def processLines (mode : Nat) : List (List Nat) → Nat × List SrvMsg
  | [] => (mode, [])
  | l :: ls =>
    let q := processCommand mode l
    let p := processLines q.1 ls
    (p.1, q.2 ++ p.2)

/-- `handle_client_data` (`epoll_server.c:212-406`): route to
`handle_file_transfer` in file mode; otherwise detect binary data, or append
to the command buffer (fixed capacity 1024: overflow when
`buffer_len + bytes_read >= 1023` sends one `ERROR:` frame and returns `-1`,
`epoll_server.c:346-370`), then drain complete command lines.  Empty input
models `recv` returning 0. -/
def handleClientData (fs : List Nat → Bool) (st : ClientInfo) (data : List Nat) : SrvStep :=
  if st.state = 1 then handleFileTransfer fs st data
  else if data = [] then ⟨st, [], .disconnect⟩
  else if serverDetect data then
    let d := detLoop fs (2 * data.length + 2) { st with state := 1 } data
    ⟨d.st, .detectedBinary :: d.msgs, d.res⟩
  else if st.buffer.length + data.length < 1023 then
    let p := drainLines (st.buffer ++ data)
    let q := processLines st.state p.1
    ⟨{ st with buffer := p.2, state := q.1 }, q.2, .ok⟩
  else
    ⟨st, [.errBufferOverflow], .disconnect⟩

/-- `remove_client` (`epoll_server.c:120-142`): drop the first entry with the
given descriptor, closing its upload file if open (the emitted `closedFile`
event records the `fclose`).  The C code swaps the last entry into the hole;
for a table of distinct descriptors the reachable lookups agree. -/
def removeClient : List ClientInfo → Nat → List ClientInfo × List SrvMsg
  | [], _ => ([], [])
  | c :: rest, fd =>
    if c.fd = fd then
      (rest, if c.uploadOpen then [.closedFile] else [])
    else
      let p := removeClient rest fd
      (c :: p.1, p.2)

/-- `find_client` (`epoll_server.c:145-155`). -/
def findClient (clients : List ClientInfo) (fd : Nat) : Option ClientInfo :=
  clients.find? (fun c => c.fd = fd)

/-- Replace the entry with the given descriptor. -/
def updateClient (clients : List ClientInfo) (c : ClientInfo) : List ClientInfo :=
  clients.map (fun c0 => if c0.fd = c.fd then c else c0)

/-- The reactor's reaction to read-readiness on a client descriptor
(`epoll_server.c:763-772`): run `handle_client_data`; on `-1` delete the
descriptor from epoll, remove the client (closing any open upload file) and
close the socket. -/
def serverReactData (fs : List Nat → Bool) (clients : List ClientInfo) (fd : Nat)
    (data : List Nat) : List ClientInfo × List SrvMsg :=
  match findClient clients fd with
  | none => (clients, [])
  | some c =>
    let s := handleClientData fs c data
    match s.res with
    | .ok => (updateClient clients s.st, s.msgs)
    | .disconnect =>
      let p := removeClient (updateClient clients s.st) fd
      (p.1, s.msgs ++ p.2)

/-! ## Client side (`client/epoll_client.c`) -/

/-- The client's UI/transfer mode `client_state_t`. -/
inductive CState where
  | command
  | sending
  | receiving
deriving Repr, DecidableEq

/-- Observable client events: console messages and error prints of
`receive_file_chunk_epoll` and its call sites. -/
inductive CliMsg where
  | errIterLimit
  | errInvalidChunkSize
  | errTooLarge
  | errSequence
  | errOpenFail
  | receivingFile
  | fileReceived
  | startingDownload
  | downloadFailed
  | serverLine (l : List Nat)
  | serverClosed
deriving Repr, DecidableEq

/-- The client's `transfer_state_t`.  `fileContents` models the bytes written
to the open local file. -/
structure TransferState where
  cstate : CState := .command
  fileOpen : Bool := false
  fileContents : List Nat := []
  filename : List Nat := []
  totalChunks : Nat := 0
  currentChunk : Nat := 0
  fileSize : Nat := 0
  currentHeader : FileChunkHeader := {}
deriving Repr, DecidableEq

/-- The function-local `static` variables of `receive_file_chunk_epoll`
(`epoll_client.c:753-758`): process-wide reassembly state, persisted across
invocations.  `recvBuf` models the first `recv_pos` bytes of `recv_buffer`. -/
structure RecvStatics where
  recvBuf : List Nat := []
  expectingHeader : Bool := true
  payloadRemaining : Nat := 0
  lastChunkId : Int := -1
  transferActive : Bool := false
deriving Repr, DecidableEq

/-- Result of one client receive invocation: transfer state, statics, emitted
events, and the C return value (1 complete, 0 continue, -1 error). -/
structure CliStep where
  ts : TransferState
  statics : RecvStatics
  msgs : List CliMsg
  res : Int
deriving Repr, DecidableEq

/-- `init_transfer_state` (`epoll_client.c:670-683`). -/
def initTransferState : TransferState := {}

/-- The byte-consuming loop of `receive_file_chunk_epoll`
(`epoll_client.c:779-936`).  The fuel models the source's own iteration cap
`max_iterations = bytes_available * 2`: running out of fuel is the
`iteration_count >= max_iterations` error exit (`epoll_client.c:939-944`). -/
def cliLoop (fs : List Nat → Bool) :
    Nat → TransferState → RecvStatics → List Nat → CliStep
  | 0, ts, sx, _ => ⟨ts, { sx with transferActive := false }, [.errIterLimit], -1⟩
  | fuel + 1, ts, sx, data =>
    if data = [] then ⟨ts, sx, [], 0⟩
    else if sx.expectingHeader then
      -- header phase (epoll_client.c:782-855)
      let need := 80 - sx.recvBuf.length
      let buf := sx.recvBuf ++ data.take need
      let rest := data.drop need
      if buf.length < 80 then
        ⟨ts, { sx with recvBuf := buf }, [], 0⟩
      else
        let h := decodeHeader buf
        let ts1 := { ts with currentHeader := h }
        if 512 < h.chunkSize ∨ h.chunkSize = 0 then
          -- epoll_client.c:807-812
          ⟨ts1, { sx with recvBuf := buf, transferActive := false },
            [.errInvalidChunkSize], -1⟩
        else if 2000000 < h.totalChunks then
          -- epoll_client.c:815-820
          ⟨ts1, { sx with recvBuf := buf, transferActive := false }, [.errTooLarge], -1⟩
        else if 0 < ts.currentChunk ∧ (h.chunkId : Int) ≠ sx.lastChunkId + 1 then
          -- sequence validation (epoll_client.c:823-829)
          ⟨ts1, { sx with recvBuf := buf, transferActive := false }, [.errSequence], -1⟩
        else
          let sx1 := { sx with lastChunkId := (h.chunkId : Int) }
          if h.chunkId = 0 then
            -- first chunk: record name and total, open the local file
            -- (epoll_client.c:833-848); filename[63] is forced to NUL first
            let fname := cstr (h.filename.take 63)
            let ts2 := { ts1 with filename := fname, totalChunks := h.totalChunks }
            if fs fname then
              let next := cliLoop fs fuel
                { ts2 with fileOpen := true, fileContents := [] }
                { sx1 with
                  expectingHeader := false, payloadRemaining := h.chunkSize,
                  recvBuf := [] } rest
              ⟨next.ts, next.statics, .receivingFile :: next.msgs, next.res⟩
            else
              ⟨ts2, { sx1 with recvBuf := buf, transferActive := false },
                [.errOpenFail], -1⟩
          else
            cliLoop fs fuel ts1
              { sx1 with
                expectingHeader := false, payloadRemaining := h.chunkSize,
                recvBuf := [] } rest
    else
      -- payload phase (epoll_client.c:857-935): payload bytes are gathered in
      -- recv_buffer and written in one fwrite when the chunk is complete
      let toCopy := min data.length sx.payloadRemaining
      let buf := sx.recvBuf ++ data.take toCopy
      let rest := data.drop toCopy
      let sx1 := { sx with recvBuf := buf, payloadRemaining := sx.payloadRemaining - toCopy }
      if sx1.payloadRemaining = 0 then
        let ts1 :=
          if ts.fileOpen then { ts with fileContents := ts.fileContents ++ buf } else ts
        let ts2 := { ts1 with currentChunk := ts1.currentChunk + 1 }
        if ts2.totalChunks ≤ ts2.currentChunk then
          -- transfer complete (epoll_client.c:916-929): reset statics, return 1
          ⟨ts2,
            { recvBuf := [], expectingHeader := true, payloadRemaining := 0,
              lastChunkId := -1, transferActive := false },
            [.fileReceived], 1⟩
        else
          cliLoop fs fuel ts2 { sx1 with expectingHeader := true, recvBuf := [] } rest
      else
        ⟨ts, sx1, [], 0⟩

/-- `receive_file_chunk_epoll` (`epoll_client.c:751-947`): reset the statics
when a completely new download is starting (`epoll_client.c:765-773`), then
run the loop with the source's iteration budget `2 * bytes_available`. -/
def cliRecv (fs : List Nat → Bool) (ts : TransferState) (sx : RecvStatics)
    (data : List Nat) : CliStep :=
  let sx0 :=
    if ts.currentChunk = 0 ∧ ts.totalChunks = 0 ∧ sx.transferActive = false then
      ({ recvBuf := [], expectingHeader := true, payloadRemaining := 0,
         lastChunkId := -1, transferActive := true } : RecvStatics)
    else sx
  cliLoop fs (2 * data.length) ts sx0 data

/-- The client's heuristic header test while in command mode
(`epoll_client.c:431-445`): a header's worth of bytes with `chunk_id == 0`,
`0 < total_chunks < 2000000`, `0 < chunk_size <= 512` and a non-empty
filename field. -/
def clientDetect (data : List Nat) : Bool :=
  80 ≤ data.length ∧
    (let h := decodeHeader data
     h.chunkId = 0 ∧ 0 < h.totalChunks ∧ h.totalChunks < 2000000 ∧
       0 < h.chunkSize ∧ h.chunkSize ≤ 512 ∧ byteAt h.filename 0 ≠ 0)

/-- Call-site state of `start_epoll_client`: the transfer state, the receive
statics, and the text-response buffer `server_buffer`. -/
structure CliNet where
  ts : TransferState := {}
  sx : RecvStatics := {}
  serverBuf : List Nat := []
  connected : Bool := true
deriving Repr, DecidableEq

/-- The `EPOLLIN` branch for the socket in `start_epoll_client`
(`epoll_client.c:381-539`): while `Receiving` feed the bytes to
`receive_file_chunk_epoll` and on completion or error close the file and
reset the transfer state; in command mode first try the binary heuristic and
otherwise buffer and print text lines (text buffer capacity 4096; an
overflowing burst is silently dropped).  Empty input models `recv <= 0`. -/
def clientHandleSocketData (fs : List Nat → Bool) (n : CliNet) (data : List Nat) :
    CliNet × List CliMsg :=
  if data = [] then ({ n with connected := false }, [.serverClosed])
  else if n.ts.cstate = .receiving then
    let r := cliRecv fs n.ts n.sx data
    if r.res = 1 then
      ({ n with ts := initTransferState, sx := r.statics }, r.msgs)
    else if r.res = -1 then
      ({ n with ts := initTransferState, sx := r.statics }, r.msgs ++ [.downloadFailed])
    else
      ({ n with ts := r.ts, sx := r.statics }, r.msgs)
  else if n.ts.cstate = .command ∧ clientDetect data then
    -- epoll_client.c:446-481
    let ts1 :=
      { n.ts with cstate := .receiving, currentChunk := 0, totalChunks := 0, filename := [] }
    let r := cliRecv fs ts1 n.sx data
    if r.res = 1 then
      ({ n with ts := initTransferState, sx := r.statics }, .startingDownload :: r.msgs)
    else if r.res = -1 then
      ({ n with ts := initTransferState, sx := r.statics },
        .startingDownload :: (r.msgs ++ [.downloadFailed]))
    else
      ({ n with ts := r.ts, sx := r.statics }, .startingDownload :: r.msgs)
  else
    -- text responses (epoll_client.c:484-538)
    let buf :=
      if n.serverBuf.length + data.length < 4095 then n.serverBuf ++ data else n.serverBuf
    let p := drainLines buf
    ({ n with serverBuf := p.2 }, p.1.map .serverLine)

/-! ## Send paths (`server/commands.c:send_file`, client upload) -/

/-- Bytes delivered by the `i`-th sequential `fread` of up to 512 bytes. -/
def chunkPayload (fileData : List Nat) (i : Nat) : List Nat :=
  (fileData.drop (512 * i)).take 512

/-- `total_chunks = (fsize + CHUNK_SIZE - 1) / CHUNK_SIZE` with
`CHUNK_SIZE = 512` (`commands.c:133`, and identically
`epoll_client.c:977`). -/
def serverTotalChunks (fsize : Nat) : Nat :=
  (fsize + 512 - 1) / 512

/-- Modelled from the spec: the ceiling `ceil(size / chunk_size)` that the
spec says the send path computes, written independently of the code's
expression so the two can be compared. -/
def specCeilDiv (n k : Nat) : Nat :=
  if n % k = 0 then n / k else n / k + 1

/-- The chunk stream emitted by the server's `send_file` (`commands.c:118-242`)
for a file it opened successfully: chunk `i` carries the next `fread` result
with `chunk_size` equal to the bytes actually read, and — as the code runs
`strncpy(header.filename, filename, 63)` on every iteration
(`commands.c:165`) — the filename field populated on every chunk. -/
def serverSendChunks (fileData fname : List Nat) : List (FileChunkHeader × List Nat) :=
  (List.range (serverTotalChunks fileData.length)).map (fun i =>
    let payload := chunkPayload fileData i
    ({ chunkId := i, chunkSize := payload.length,
       totalChunks := serverTotalChunks fileData.length, htype := 0,
       filename := padTo64 (fname.take 63) }, payload))

/-- `start_file_upload` (`epoll_client.c:950-984`): reject an empty file,
otherwise enter `Sending` with `total_chunks = ceil(size/512)`. -/
def clientStartUpload (fileData fname : List Nat) (ts : TransferState) :
    Option TransferState :=
  if fileData.length = 0 then none
  else
    some
      { ts with
        cstate := .sending, fileOpen := true, filename := fname.take 63,
        fileSize := fileData.length,
        totalChunks := serverTotalChunks fileData.length, currentChunk := 0 }

/-- `send_file_chunk_epoll` (`epoll_client.c:686-748`), with sends succeeding:
read the next chunk, build its header — filename populated only on chunk 0,
zeroed otherwise (`epoll_client.c:708-716`) — emit it, and report 1 when
`current_chunk` reaches `total_chunks`. -/
def sendFileChunkEpoll (fileData : List Nat) (ts : TransferState) :
    TransferState × Option (FileChunkHeader × List Nat) × Int :=
  if ts.fileOpen = false then (ts, none, -1)
  else
    let chunk := chunkPayload fileData ts.currentChunk
    if chunk.length = 0 then (ts, none, 0)
    else
      let header : FileChunkHeader :=
        { chunkId := ts.currentChunk, chunkSize := chunk.length,
          totalChunks := ts.totalChunks, htype := 0,
          filename :=
            if ts.currentChunk = 0 then padTo64 (ts.filename.take 63)
            else List.replicate 64 0 }
      let ts1 := { ts with currentChunk := ts.currentChunk + 1 }
      (ts1, some (header, chunk),
        if ts.totalChunks ≤ ts1.currentChunk then 1 else 0)

/-- The write-readiness pump of the client's upload (`epoll_client.c:342-360`):
keep calling `send_file_chunk_epoll` until it reports completion, collecting
the emitted chunks. -/
def pumpUpload (fileData : List Nat) : Nat → TransferState → List (FileChunkHeader × List Nat)
  | 0, _ => []
  | fuel + 1, ts =>
    let r := sendFileChunkEpoll fileData ts
    match r.2.1 with
    | none => []
    | some c => if r.2.2 = 1 then [c] else c :: pumpUpload fileData fuel r.1

/-- Full upload stream of a file from the client (`send <filename>`). -/
def clientUploadChunks (fileData fname : List Nat) : List (FileChunkHeader × List Nat) :=
  match clientStartUpload fileData fname {} with
  | none => []
  | some ts => pumpUpload fileData (ts.totalChunks + 1) ts

/-! ## Client receive timeouts (`epoll_client.c:196-251`) -/

/-- The `epoll_wait` timeout: 10000 ms while `Receiving`, infinite (-1)
otherwise (`epoll_client.c:199`). -/
def epollTimeoutMs (ts : TransferState) : Int :=
  if ts.cstate = .receiving then 10000 else -1

/-- The no-data timeout threshold: 10 for transfers expected to exceed
100000 chunks, otherwise 5 (`epoll_client.c:216`). -/
def maxTimeouts (totalChunks : Nat) : Nat :=
  if 100000 < totalChunks then 10 else 5

/-- One wait iteration's outcome: a timeout (`num_events == 0`) or any
readiness activity (`num_events > 0`). -/
inductive LoopEvent where
  | timeout
  | activity
deriving Repr, DecidableEq

/-- The timeout bookkeeping of the client's event loop
(`epoll_client.c:209-251`): readiness resets the no-data counter; a timeout
while `Receiving` increments it and, at the threshold, closes any open file
and resets the transfer state to `Command`. -/
def clientTimeoutStep (ts : TransferState) (noData : Nat) :
    LoopEvent → TransferState × Nat
  | .activity => (ts, 0)
  | .timeout =>
    if ts.cstate = .receiving then
      let n := noData + 1
      if maxTimeouts ts.totalChunks ≤ n then (initTransferState, n)
      else (ts, n)
    else (ts, noData)

/-- Iterate `clientTimeoutStep` over a sequence of wait outcomes. -/
def runTimeoutSteps (ts : TransferState) (noData : Nat) (evs : List LoopEvent) :
    TransferState × Nat :=
  evs.foldl (fun p e => clientTimeoutStep p.1 p.2 e) (ts, noData)

/-! ## Path resolution (for the storage-escape analysis of the upload path) -/

/-- Split a byte path on the separator `/` (47), dropping empty components. -/
def splitPathAux : List Nat → List Nat → List (List Nat)
  | [], acc => [acc.reverse]
  | b :: rest, acc =>
    if b = 47 then acc.reverse :: splitPathAux rest []
    else splitPathAux rest (b :: acc)

/-- Path components of a byte path. -/
def splitPath (p : List Nat) : List (List Nat) :=
  (splitPathAux p []).filter (fun c => c ≠ [])

/-- The bytes "..". -/
def dotDotBytes : List Nat := [46, 46]

/-- POSIX-style resolution of relative path components against the process's
working directory: `.` is dropped, `..` pops the previously entered
component (or, with nothing left to pop, steps above the working
directory and is dropped here). -/
def resolveAux : List (List Nat) → List (List Nat) → List (List Nat)
  | stack, [] => stack.reverse
  | stack, c :: cs =>
    if c = [46] then resolveAux stack cs
    else if c = dotDotBytes then
      match stack with
      | [] => resolveAux [] cs
      | _ :: s => resolveAux s cs
    else resolveAux (c :: stack) cs

/-- Resolved components of a byte path. -/
def resolvePath (p : List Nat) : List (List Nat) :=
  resolveAux [] (splitPath p)

/-- Whether a path resolves to somewhere inside the `saved` storage
subdirectory. -/
def insideSaved (p : List Nat) : Bool :=
  match resolvePath p with
  | c :: _ => c = [115, 97, 118, 101, 100]
  | [] => false

/-! ## Concrete inputs used by the claim theorems -/

/-- A filesystem on which every `fopen(..., "wb")` succeeds. -/
def fsAll : List Nat → Bool := fun _ => true

/-- A fresh connection already switched to file-transfer mode (as after an
`upload` command or detection). -/
def srvTransferStart : ClientInfo := { fd := 3, state := 1 }

/-- First chunk header of a 5-chunk transfer, 1-byte payloads, filename "f". -/
def hdrId0 : FileChunkHeader :=
  { chunkId := 0, chunkSize := 1, totalChunks := 5, htype := 0, filename := [102] }

/-- Chunk header with id 1 of the same transfer. -/
def hdrId1 : FileChunkHeader :=
  { chunkId := 1, chunkSize := 1, totalChunks := 5, htype := 0, filename := [] }

/-- Chunk header with id 3 of the same transfer (id 2 is skipped). -/
def hdrId3 : FileChunkHeader :=
  { chunkId := 3, chunkSize := 1, totalChunks := 5, htype := 0, filename := [] }

/-- The wire bytes of a transfer announcing `total_chunks = 5` whose chunk
ids run 0, 1, 3: the id-2 slot is skipped. -/
def streamIds013 : List Nat :=
  encHeader hdrId0 ++ [7] ++ encHeader hdrId1 ++ [8] ++ encHeader hdrId3 ++ [9]

/-! ## C6 -/

theorem pumpUpload_chunkSize {fileData : List Nat} :
    ∀ (fuel : Nat) (ts : TransferState) (c : FileChunkHeader × List Nat),
      c ∈ pumpUpload fileData fuel ts → c.1.chunkSize = c.2.length := by
  intro fuel
  induction fuel with
  | zero => intro ts c hc; simp [pumpUpload] at hc
  | succ n ih =>
    intro ts c hc
    rw [pumpUpload] at hc
    by_cases hopen : ts.fileOpen = false
    · simp [sendFileChunkEpoll, hopen] at hc
    · by_cases hch : (chunkPayload fileData ts.currentChunk).length = 0
      · simp [sendFileChunkEpoll, hopen, hch] at hc
      · by_cases hle : ts.totalChunks ≤ ts.currentChunk + 1
        · simp [sendFileChunkEpoll, hopen, hch, hle] at hc
          subst hc
          rfl
        · simp [sendFileChunkEpoll, hopen, hch, hle] at hc
          rcases hc with h | h
          · subst h; rfl
          · exact ih _ c h

/-- C6: the send paths (server `send_file`, client `start_file_upload`)
compute `total_chunks = ceil(size / chunk_size)` with chunk size 512, so a
512-byte file gives 1 chunk and a 513-byte file gives 2 chunks whose second
chunk carries exactly 1 payload byte; every emitted header's `chunk_size`
equals the bytes actually read for that chunk. -/
theorem C6_total_chunks_ceil :
    (∀ n, serverTotalChunks n = specCeilDiv n 512) ∧
    (∀ (f fn : List Nat) (ts st : TransferState),
      clientStartUpload f fn ts = some st → st.totalChunks = specCeilDiv f.length 512) ∧
    serverTotalChunks 512 = 1 ∧ serverTotalChunks 513 = 2 ∧
    (∀ (f fn : List Nat) (c : FileChunkHeader × List Nat),
      c ∈ serverSendChunks f fn → c.1.chunkSize = c.2.length) ∧
    (∀ (f fn : List Nat) (c : FileChunkHeader × List Nat),
      c ∈ clientUploadChunks f fn → c.1.chunkSize = c.2.length) ∧
    serverSendChunks (List.replicate 513 9) [102] =
      [({ chunkId := 0, chunkSize := 512, totalChunks := 2, htype := 0,
          filename := padTo64 [102] }, List.replicate 512 9),
       ({ chunkId := 1, chunkSize := 1, totalChunks := 2, htype := 0,
          filename := padTo64 [102] }, [9])] ∧
    (clientUploadChunks (List.replicate 513 9) [102]).length = 2 ∧
    (clientUploadChunks (List.replicate 513 9) [102]).map (fun c => c.2.length) = [512, 1] := by
  refine ⟨?_, ?_, by decide, by decide, ?_, ?_, by decide, by decide, by decide⟩
  · intro n
    unfold serverTotalChunks specCeilDiv
    by_cases h : n % 512 = 0 <;> simp [h] <;> omega
  · intro f fn ts st h
    unfold clientStartUpload at h
    by_cases h0 : f.length = 0
    · simp [h0] at h
    · simp only [h0, if_neg, if_false, Option.some.injEq] at h
      subst h
      show serverTotalChunks f.length = specCeilDiv f.length 512
      unfold serverTotalChunks specCeilDiv
      by_cases h : f.length % 512 = 0 <;> simp [h] <;> omega
  · intro f fn c hc
    simp only [serverSendChunks, List.mem_map, List.mem_range] at hc
    obtain ⟨i, _, rfl⟩ := hc
    rfl
  · intro f fn c hc
    unfold clientUploadChunks at hc
    by_cases h0 : f.length = 0
    · simp [clientStartUpload, h0] at hc
    · simp only [clientStartUpload, h0, if_neg, if_false] at hc
      exact pumpUpload_chunkSize _ _ c hc

/-- C6 witness: the general clauses applied at the 513-byte file. -/
theorem C6_total_chunks_ceil_witness :
    ({ cstate := CState.sending, fileOpen := true, filename := [102],
       fileSize := 513, totalChunks := serverTotalChunks 513,
       currentChunk := 0 } : TransferState).totalChunks = specCeilDiv 513 512 ∧
    (({ chunkId := 1, chunkSize := 1, totalChunks := 2, htype := 0,
        filename := padTo64 [102] } : FileChunkHeader), ([9] : List Nat)).1.chunkSize =
      (([9] : List Nat)).length :=
  ⟨C6_total_chunks_ceil.2.1 (List.replicate 513 9) [102] {} _ (by decide),
   C6_total_chunks_ceil.2.2.2.2.1 (List.replicate 513 9) [102] _ (by decide)⟩

/-! ## C8 -/

/-- C8: in command mode, a byte burst that is not header-shaped and whose
accumulation would exceed the fixed 1024-byte command buffer (threshold
`buffer_len + bytes_read >= 1023`) makes the server emit exactly one
`ERROR:` frame and return `-1`, forcibly disconnecting that client — whether
or not the bytes contain a newline, which covers the claim's
newline-free case. -/
theorem C8_overflow_disconnects (fs : List Nat → Bool) (st : ClientInfo) (data : List Nat)
    (hmode : st.state = 0) (hne : data ≠ [])
    (hdet : serverDetect data = false)
    (hover : 1023 ≤ st.buffer.length + data.length) :
    handleClientData fs st data = ⟨st, [.errBufferOverflow], .disconnect⟩ := by
  unfold handleClientData
  rw [hmode]
  rw [if_neg (by decide)]
  rw [if_neg hne]
  rw [if_neg (by simp [hdet])]
  rw [if_neg (by omega)]

/-- C8 witness: 1023 bytes of `a` with an empty command buffer. -/
theorem C8_overflow_disconnects_witness :
    handleClientData fsAll { fd := 3 } (List.replicate 1023 97) =
      ⟨{ fd := 3 }, [.errBufferOverflow], .disconnect⟩ :=
  C8_overflow_disconnects fsAll { fd := 3 } (List.replicate 1023 97)
    rfl (by decide) (by decide) (by decide)

/-! ## C9 -/

/-- C9: while `Receiving` the client's wait uses the bounded 10-second
timeout (infinite otherwise); readiness resets the consecutive no-data
counter; a no-data timeout at the threshold — 10 for transfers over 100000
expected chunks, otherwise 5 — closes any open file and resets the transfer
state to `Command`. -/
theorem C9_receive_timeout_aborts :
    (∀ ts : TransferState, ts.cstate = .receiving → epollTimeoutMs ts = 10000) ∧
    (∀ ts : TransferState, ts.cstate ≠ .receiving → epollTimeoutMs ts = -1) ∧
    (∀ t, 100000 < t → maxTimeouts t = 10) ∧
    (∀ t, t ≤ 100000 → maxTimeouts t = 5) ∧
    (∀ (ts : TransferState) (n : Nat), clientTimeoutStep ts n .activity = (ts, 0)) ∧
    (∀ (ts : TransferState) (n : Nat), ts.cstate = .receiving →
      maxTimeouts ts.totalChunks ≤ n + 1 →
      clientTimeoutStep ts n .timeout = (initTransferState, n + 1)) ∧
    (∀ (ts : TransferState) (n : Nat), ts.cstate = .receiving →
      n + 1 < maxTimeouts ts.totalChunks →
      clientTimeoutStep ts n .timeout = (ts, n + 1)) ∧
    initTransferState.cstate = .command ∧ initTransferState.fileOpen = false := by
  refine ⟨?_, ?_, ?_, ?_, ?_, ?_, ?_, rfl, rfl⟩
  · intro ts h; simp [epollTimeoutMs, h]
  · intro ts h; simp [epollTimeoutMs, h]
  · intro t h; simp [maxTimeouts, h]
  · intro t h; simp [maxTimeouts]; omega
  · intro ts n; rfl
  · intro ts n h hth
    simp [clientTimeoutStep, h, hth]
  · intro ts n h hth
    simp [clientTimeoutStep, h]
    omega

/-- C9 witness: a 4-chunk download aborts on the fifth consecutive
timeout. -/
theorem C9_receive_timeout_aborts_witness :
    clientTimeoutStep
        { cstate := CState.receiving, fileOpen := true, totalChunks := 4 } 4 .timeout =
      (initTransferState, 5) ∧
    epollTimeoutMs { cstate := CState.receiving, fileOpen := true, totalChunks := 4 } = 10000 :=
  ⟨C9_receive_timeout_aborts.2.2.2.2.2.1
      { cstate := CState.receiving, fileOpen := true, totalChunks := 4 } 4 rfl (by decide),
   C9_receive_timeout_aborts.1
      { cstate := CState.receiving, fileOpen := true, totalChunks := 4 } rfl⟩

/-! ## C10 -/

/-- C10: the upload destination path is the literal concatenation of the
fixed storage prefix "saved/" with the header's filename field — no
sanitisation — and the transfer engine opens exactly that path; a filename
with a ".." component therefore resolves outside the `saved` storage
subdirectory (here "../evil" resolves to "evil" in the server's working
directory), while an ordinary filename stays inside it. -/
theorem C10_path_concatenation_escapes :
    (∀ f, uploadDestPath f = savedDirBytes ++ f) ∧
    resolvePath (uploadDestPath [46, 46, 47, 101, 118, 105, 108]) = [[101, 118, 105, 108]] ∧
    insideSaved (uploadDestPath [46, 46, 47, 101, 118, 105, 108]) = false ∧
    insideSaved (uploadDestPath [101, 118, 105, 108]) = true ∧
    (handleFileTransfer
        (fun p => p = uploadDestPath [46, 46, 47, 101, 118, 105, 108])
        srvTransferStart
        (encHeader
          { chunkId := 0, chunkSize := 1, totalChunks := 1, htype := 0,
            filename := [46, 46, 47, 101, 118, 105, 108] })).st.uploadFilename =
      [46, 46, 47, 101, 118, 105, 108] :=
  ⟨fun _ => rfl, by decide, by decide, by decide, by decide⟩

/-! ## C1 counterexample, C2 counterexample -/

/-- C1 counterexample: the server's receiver, fed `total_chunks = 5` with
chunk ids 0, 1, 3, performs no sequence check: it consumes all three chunks
(writing all three payload bytes), counts 3 received chunks, stays in
transfer mode and reports no error — it does not abort by the third chunk as
the claim states for "the receiver". -/
theorem C1_counterexample :
    (handleFileTransfer fsAll srvTransferStart streamIds013).res = .ok ∧
    (handleFileTransfer fsAll srvTransferStart streamIds013).st.receivedChunks = 3 ∧
    (handleFileTransfer fsAll srvTransferStart streamIds013).st.state = 1 ∧
    (handleFileTransfer fsAll srvTransferStart streamIds013).st.uploadContents = [7, 8, 9] ∧
    (handleFileTransfer fsAll srvTransferStart streamIds013).msgs =
      [.chunkReceived 1 5, .chunkReceived 2 5, .chunkReceived 3 5] := by
  refine ⟨by decide, by decide, by decide, by decide, by decide⟩

/-- A valid-sized header whose id is 5 — not 0 — as the first header of a
transfer-mode connection. -/
def hdrId5 : FileChunkHeader :=
  { chunkId := 5, chunkSize := 1, totalChunks := 3, htype := 0, filename := [] }

/-- C2 counterexample: a connection switched to transfer mode (after
`upload`) whose first header has id 5 never records `expected_chunks`
(that happens only on an id-0 header), so after one chunk the count reaches
`received = 1 > expected = 0` and the `received >= expected` test declares
the transfer complete and emits `SUCCESS:` with the two counts unequal. -/
theorem C2_counterexample :
    (handleFileTransfer fsAll srvTransferStart (encHeader hdrId5 ++ [7])).msgs =
      [.chunkReceived 1 0, .successUploaded] ∧
    (handleFileTransfer fsAll srvTransferStart (encHeader hdrId5 ++ [7])).res = .ok ∧
    (1 : Nat) ≠ 0 := by
  refine ⟨by decide, by decide, by decide⟩

/-! ## C3 counterexample -/

/-- Valid first header of a 2-chunk upload (1-byte payload, filename "a"). -/
def hdrBurstA : FileChunkHeader :=
  { chunkId := 0, chunkSize := 1, totalChunks := 2, htype := 0, filename := [97] }

/-- Second header of the same burst carrying the invalid `chunk_size = 0`. -/
def hdrBurstB : FileChunkHeader :=
  { chunkId := 1, chunkSize := 0, totalChunks := 2, htype := 0, filename := [] }

/-- A single command-mode burst: valid first chunk, then a `chunk_size = 0`
header, then one byte so the zero-length chunk completes inside the burst. -/
def burstZeroSize : List Nat :=
  encHeader hdrBurstA ++ [55] ++ encHeader hdrBurstB ++ [77]

/-- C3 counterexample: when chunks are parsed by the in-command-mode
detection loop, a later header in the same burst is not validated at all: the
`chunk_size = 0` header above is accepted, counted as a received chunk, and
the upload is declared successful — no rejection, no abort. -/
theorem C3_counterexample :
    (decodeHeader (encHeader hdrBurstB)).chunkSize = 0 ∧
    (handleClientData fsAll { fd := 3 } burstZeroSize).res = .ok ∧
    (handleClientData fsAll { fd := 3 } burstZeroSize).msgs =
      [.detectedBinary, .chunkReceived 1 2, .chunkReceived 2 2, .successUploaded] ∧
    SrvMsg.errInvalidHeader ∉ (handleClientData fsAll { fd := 3 } burstZeroSize).msgs := by
  refine ⟨by decide, by decide, by decide, by decide⟩

/-! ## C4 -/

/-- A header-shaped burst with `chunk_id = 7` and an all-NUL filename. -/
def hdrId7 : FileChunkHeader :=
  { chunkId := 7, chunkSize := 1, totalChunks := 1, htype := 0, filename := [] }

/-- C4 counterexample: the server switches to binary mode on a burst whose
header has `chunk_id = 7` and an empty filename field — detection does not
require `chunk_id == 0` or a non-empty filename as the claim states. -/
theorem C4_counterexample :
    serverDetect (encHeader hdrId7 ++ [1]) = true ∧
    (decodeHeader (encHeader hdrId7 ++ [1])).chunkId = 7 ∧
    byteAt (decodeHeader (encHeader hdrId7 ++ [1])).filename 0 = 0 ∧
    SrvMsg.detectedBinary ∈ (handleClientData fsAll { fd := 3 } (encHeader hdrId7 ++ [1])).msgs := by
  refine ⟨by decide, by decide, by decide, by decide⟩

theorem processLines_msgs_dispatched :
    ∀ (lines : List (List Nat)) (mode : Nat) (m : SrvMsg),
      m ∈ (processLines mode lines).2 → ∃ cmd, m = .commandDispatched cmd := by
  intro lines
  induction lines with
  | nil => intro mode m hm; simp [processLines] at hm
  | cons l ls ih =>
    intro mode m hm
    simp only [processLines, List.mem_append] at hm
    rcases hm with hm | hm
    · unfold processCommand at hm
      by_cases hu : l.take 6 = uploadCmdBytes
      · simp [hu] at hm
      · simp only [hu, if_neg, if_false] at hm
        simp at hm
        exact ⟨l, hm⟩
    · exact ih _ m hm

/-- C4 (amended): the binary mode switch fires exactly on the plausibility
conditions each side actually checks — the client requires `chunk_id == 0`,
`0 < total_chunks < 2000000`, `0 < chunk_size <= 512` and a non-empty
filename field, while the server requires only `0 < chunk_size <= 8192` and
`0 < total_chunks <= 2000000`, ignoring the chunk id and the filename; bytes
failing the respective test are handled as text. -/
theorem C4_detection_conditions :
    (∀ (fs : List Nat → Bool) (st : ClientInfo) (data : List Nat),
      st.state = 0 → data ≠ [] →
      (SrvMsg.detectedBinary ∈ (handleClientData fs st data).msgs ↔
        serverDetect data = true)) ∧
    (∀ data : List Nat, serverDetect data = true ↔
      (80 ≤ data.length ∧ 0 < (decodeHeader data).chunkSize ∧
        (decodeHeader data).chunkSize ≤ 8192 ∧ 0 < (decodeHeader data).totalChunks ∧
        (decodeHeader data).totalChunks ≤ 2000000)) ∧
    (∀ (fs : List Nat → Bool) (n : CliNet) (data : List Nat),
      n.ts.cstate = .command → data ≠ [] →
      (CliMsg.startingDownload ∈ (clientHandleSocketData fs n data).2 ↔
        clientDetect data = true)) ∧
    (∀ data : List Nat, clientDetect data = true ↔
      (80 ≤ data.length ∧ (decodeHeader data).chunkId = 0 ∧
        0 < (decodeHeader data).totalChunks ∧ (decodeHeader data).totalChunks < 2000000 ∧
        0 < (decodeHeader data).chunkSize ∧ (decodeHeader data).chunkSize ≤ 512 ∧
        byteAt (decodeHeader data).filename 0 ≠ 0)) := by
  refine ⟨?_, ?_, ?_, ?_⟩
  · intro fs st data hmode hne
    unfold handleClientData
    rw [hmode]
    rw [if_neg (by decide)]
    rw [if_neg hne]
    by_cases hdet : serverDetect data = true
    · simp [hdet]
    · rw [if_neg (by simpa using hdet)]
      by_cases hcap : st.buffer.length + data.length < 1023
      · rw [if_pos hcap]
        refine iff_of_false ?_ hdet
        intro hmem
        obtain ⟨cmd, hcmd⟩ := processLines_msgs_dispatched _ _ _ hmem
        cases hcmd
      · rw [if_neg hcap]
        refine iff_of_false ?_ hdet
        intro hmem
        simp at hmem
  · intro data
    simp [serverDetect]
  · intro fs n data hcmd hne
    unfold clientHandleSocketData
    rw [if_neg hne]
    rw [if_neg (by rw [hcmd]; decide)]
    by_cases hdet : clientDetect data = true
    · rw [if_pos ⟨hcmd, hdet⟩]
      refine iff_of_true ?_ hdet
      by_cases h1 : (cliRecv fs
          { n.ts with
            cstate := .receiving, currentChunk := 0, totalChunks := 0,
            filename := [] } n.sx data).res = 1
      · simp [h1]
      · by_cases h2 : (cliRecv fs
            { n.ts with
              cstate := .receiving, currentChunk := 0, totalChunks := 0,
              filename := [] } n.sx data).res = -1
        · simp [h1, h2]
        · simp [h1, h2]
    · rw [if_neg (fun hand => hdet hand.2)]
      refine iff_of_false ?_ hdet
      intro hmem
      simp [List.mem_map] at hmem
  · intro data
    simp [clientDetect]

/-- C4 witness: the general characterisations applied to the id-7 burst. -/
theorem C4_detection_conditions_witness :
    (SrvMsg.detectedBinary ∈ (handleClientData fsAll { fd := 3 } (encHeader hdrId7 ++ [1])).msgs ↔
      serverDetect (encHeader hdrId7 ++ [1]) = true) ∧
    (CliMsg.startingDownload ∈
        (clientHandleSocketData fsAll {} (encHeader hdrId7 ++ [1])).2 ↔
      clientDetect (encHeader hdrId7 ++ [1]) = true) :=
  ⟨C4_detection_conditions.1 fsAll { fd := 3 } (encHeader hdrId7 ++ [1]) rfl (by decide),
   C4_detection_conditions.2.2.1 fsAll {} (encHeader hdrId7 ++ [1]) rfl (by decide)⟩

/-! ## C5 counterexample -/

/-- A connection two chunks into a five-chunk upload, file open. -/
def srvMidTransfer : ClientInfo :=
  { fd := 3, state := 1, uploadOpen := true, uploadContents := [1, 2],
    uploadFilename := [97], expectedChunks := 5, receivedChunks := 2 }

/-- The next header arrives with the invalid `chunk_size = 0`. -/
def hdrBadSize : FileChunkHeader :=
  { chunkId := 2, chunkSize := 0, totalChunks := 5, htype := 0, filename := [] }

/-- C5 counterexample: a validation failure mid-transfer does not return the
server connection to Command mode — `handle_file_transfer` returns `-1` and
the event loop removes the connection from the client table and closes it
(the open upload file is closed by `remove_client`), so afterwards the
descriptor is not registered at all, in any mode. -/
theorem C5_counterexample :
    findClient (serverReactData fsAll [srvMidTransfer] 3 (encHeader hdrBadSize)).1 3 = none ∧
    (serverReactData fsAll [srvMidTransfer] 3 (encHeader hdrBadSize)).1 = [] ∧
    (serverReactData fsAll [srvMidTransfer] 3 (encHeader hdrBadSize)).2 =
      [.errInvalidHeader, .closedFile] := by
  refine ⟨by decide, by decide, by decide⟩

/-! ## C7 -/

theorem pumpUpload_filename {fileData : List Nat} :
    ∀ (fuel : Nat) (ts : TransferState) (c : FileChunkHeader × List Nat),
      c ∈ pumpUpload fileData fuel ts →
      c.1.filename =
        (if c.1.chunkId = 0 then padTo64 (ts.filename.take 63) else List.replicate 64 0) := by
  intro fuel
  induction fuel with
  | zero => intro ts c hc; simp [pumpUpload] at hc
  | succ n ih =>
    intro ts c hc
    rw [pumpUpload] at hc
    by_cases hopen : ts.fileOpen = false
    · simp [sendFileChunkEpoll, hopen] at hc
    · by_cases hch : (chunkPayload fileData ts.currentChunk).length = 0
      · simp [sendFileChunkEpoll, hopen, hch] at hc
      · by_cases hle : ts.totalChunks ≤ ts.currentChunk + 1
        · simp [sendFileChunkEpoll, hopen, hch, hle] at hc
          subst hc
          rfl
        · simp [sendFileChunkEpoll, hopen, hch, hle] at hc
          rcases hc with h | h
          · subst h; rfl
          · exact ih
              { cstate := ts.cstate, fileOpen := true, fileContents := ts.fileContents,
                filename := ts.filename, totalChunks := ts.totalChunks,
                currentChunk := ts.currentChunk + 1, fileSize := ts.fileSize,
                currentHeader := ts.currentHeader } c h

/-- C7 (amended): the client's upload path populates the header filename
only on chunk id 0 and zeroes it on every later chunk, but the server's send
path (`send_file`, serving a download) copies the file name into every
chunk's header. -/
theorem C7_filename_population :
    (∀ (f fn : List Nat) (c : FileChunkHeader × List Nat),
      c ∈ clientUploadChunks f fn →
      (c.1.chunkId ≠ 0 → c.1.filename = List.replicate 64 0) ∧
      (c.1.chunkId = 0 → c.1.filename = padTo64 (fn.take 63))) ∧
    (∀ (f fn : List Nat) (c : FileChunkHeader × List Nat),
      c ∈ serverSendChunks f fn → c.1.filename = padTo64 (fn.take 63)) := by
  constructor
  · intro f fn c hc
    unfold clientUploadChunks at hc
    by_cases h0 : f.length = 0
    · simp [clientStartUpload, h0] at hc
    · simp only [clientStartUpload, h0, if_neg, if_false] at hc
      have := pumpUpload_filename _ _ c hc
      constructor
      · intro hid
        rw [if_neg hid] at this
        exact this
      · intro hid
        rw [if_pos hid] at this
        rw [this]
        simp [List.take_take]
  · intro f fn c hc
    simp only [serverSendChunks, List.mem_map, List.mem_range] at hc
    obtain ⟨i, _, rfl⟩ := hc
    rfl

/-- C7 counterexample: in the server's `send_file` stream of a 513-byte file
named "f", the chunk with id 1 carries the file name in its filename field
rather than an all-NUL field. -/
theorem C7_counterexample :
    (serverSendChunks (List.replicate 513 9) [102]).map
        (fun c => (c.1.chunkId, c.1.filename)) =
      [(0, padTo64 [102]), (1, padTo64 [102])] ∧
    padTo64 [102] ≠ List.replicate 64 0 := by
  refine ⟨by decide, by decide⟩

/-- C7 witness: the amended statement applied to the 513-byte upload and
download streams. -/
theorem C7_filename_population_witness :
    (({ chunkId := 1, chunkSize := 1, totalChunks := 2, htype := 0,
        filename := List.replicate 64 0 } : FileChunkHeader), ([9] : List Nat)).1.filename =
      List.replicate 64 0 ∧
    (({ chunkId := 1, chunkSize := 1, totalChunks := 2, htype := 0,
        filename := padTo64 [102] } : FileChunkHeader), ([9] : List Nat)).1.filename =
      padTo64 ((102 : Nat) :: [] |>.take 63) :=
  ⟨(C7_filename_population.1 (List.replicate 513 9) [102] _ (by decide)).1 (by decide),
   C7_filename_population.2 (List.replicate 513 9) [102] _ (by decide)⟩

/-! ## Header-completion lemmas for the receive loops -/

theorem srvLoop_invalid_exit (fs : List Nat → Bool) (fuel : Nat) (st : ClientInfo)
    (data : List Nat)
    (hhc : st.headerComplete = false) (hbuf : st.headerBuf = [])
    (hlen : 80 ≤ data.length)
    (hinv : serverHeaderInvalid (decodeHeader (data.take 80)) = true) :
    srvLoop fs (fuel + 1) st data =
      ⟨{ st with
          headerComplete := true,
          currentHeader := decodeHeader (data.take 80),
          headerBuf := data.take 80, state := 0 },
        [.errInvalidHeader], .disconnect⟩ := by
  have hne : data ≠ [] := by intro h; subst h; simp at hlen
  have hlen80 : (data.take 80).length = 80 := by
    simp [List.length_take]; omega
  simp only [srvLoop]
  rw [if_neg hne, if_pos hhc]
  simp only [hbuf, List.nil_append, List.length_nil, Nat.sub_zero]
  rw [if_neg (by omega), if_pos hinv]

theorem handleFileTransfer_invalid (fs : List Nat → Bool) (st : ClientInfo)
    (data : List Nat)
    (hhc : st.headerComplete = false) (hbuf : st.headerBuf = [])
    (hlen : 80 ≤ data.length)
    (hinv : serverHeaderInvalid (decodeHeader (data.take 80)) = true) :
    handleFileTransfer fs st data =
      ⟨{ st with
          headerComplete := true,
          currentHeader := decodeHeader (data.take 80),
          headerBuf := data.take 80, state := 0 },
        [.errInvalidHeader], .disconnect⟩ := by
  have hne : data ≠ [] := by intro h; subst h; simp at hlen
  unfold handleFileTransfer
  rw [if_neg hne]
  have h2 : 2 * data.length + 2 = (2 * data.length + 1) + 1 := by omega
  rw [h2]
  exact srvLoop_invalid_exit fs _ st data hhc hbuf hlen hinv

theorem cliLoop_size_err (fs : List Nat → Bool) (fuel : Nat) (ts : TransferState)
    (sx : RecvStatics) (data : List Nat)
    (hexp : sx.expectingHeader = true) (hbuf : sx.recvBuf = [])
    (hlen : 80 ≤ data.length)
    (hsz : 512 < (decodeHeader (data.take 80)).chunkSize ∨
      (decodeHeader (data.take 80)).chunkSize = 0) :
    cliLoop fs (fuel + 1) ts sx data =
      ⟨{ ts with currentHeader := decodeHeader (data.take 80) },
        { sx with recvBuf := data.take 80, transferActive := false },
        [.errInvalidChunkSize], -1⟩ := by
  have hne : data ≠ [] := by intro h; subst h; simp at hlen
  simp only [cliLoop]
  rw [if_neg hne, if_pos hexp]
  simp only [hbuf, List.nil_append, List.length_nil, Nat.sub_zero]
  rw [if_neg (by simp [List.length_take]; omega), if_pos hsz]

theorem cliLoop_total_err (fs : List Nat → Bool) (fuel : Nat) (ts : TransferState)
    (sx : RecvStatics) (data : List Nat)
    (hexp : sx.expectingHeader = true) (hbuf : sx.recvBuf = [])
    (hlen : 80 ≤ data.length)
    (hsz : (decodeHeader (data.take 80)).chunkSize ≤ 512)
    (hsz0 : (decodeHeader (data.take 80)).chunkSize ≠ 0)
    (htot : 2000000 < (decodeHeader (data.take 80)).totalChunks) :
    cliLoop fs (fuel + 1) ts sx data =
      ⟨{ ts with currentHeader := decodeHeader (data.take 80) },
        { sx with recvBuf := data.take 80, transferActive := false },
        [.errTooLarge], -1⟩ := by
  have hne : data ≠ [] := by intro h; subst h; simp at hlen
  simp only [cliLoop]
  rw [if_neg hne, if_pos hexp]
  simp only [hbuf, List.nil_append, List.length_nil, Nat.sub_zero]
  rw [if_neg (by simp [List.length_take]; omega), if_neg (by omega), if_pos htot]

theorem cliLoop_seq_err (fs : List Nat → Bool) (fuel : Nat) (ts : TransferState)
    (sx : RecvStatics) (data : List Nat)
    (hexp : sx.expectingHeader = true) (hbuf : sx.recvBuf = [])
    (hlen : 80 ≤ data.length)
    (hsz : (decodeHeader (data.take 80)).chunkSize ≤ 512)
    (hsz0 : (decodeHeader (data.take 80)).chunkSize ≠ 0)
    (htot : (decodeHeader (data.take 80)).totalChunks ≤ 2000000)
    (hcc : 0 < ts.currentChunk)
    (hseq : ((decodeHeader (data.take 80)).chunkId : Int) ≠ sx.lastChunkId + 1) :
    cliLoop fs (fuel + 1) ts sx data =
      ⟨{ ts with currentHeader := decodeHeader (data.take 80) },
        { sx with recvBuf := data.take 80, transferActive := false },
        [.errSequence], -1⟩ := by
  have hne : data ≠ [] := by intro h; subst h; simp at hlen
  simp only [cliLoop]
  rw [if_neg hne, if_pos hexp]
  simp only [hbuf, List.nil_append, List.length_nil, Nat.sub_zero]
  rw [if_neg (by simp [List.length_take]; omega), if_neg (by omega),
    if_neg (by omega), if_pos ⟨hcc, hseq⟩]

/-! ## C1 -/

/-- C1 (amended): it is the client's receiver that verifies
`chunk_id == last_chunk_id + 1` for every chunk after the first and aborts
the transfer on any violation — in particular, fed `total_chunks = 5` with
ids 0, 1, 3 it aborts at the third header having written only the first two
chunks; the server's receiver performs no such check (see the
counterexample). -/
theorem C1_monotonic_ids :
    (∀ (fs : List Nat → Bool) (ts : TransferState) (sx : RecvStatics) (data : List Nat),
      sx.expectingHeader = true → sx.recvBuf = [] → 0 < ts.currentChunk →
      80 ≤ data.length →
      (decodeHeader (data.take 80)).chunkSize ≤ 512 →
      (decodeHeader (data.take 80)).chunkSize ≠ 0 →
      (decodeHeader (data.take 80)).totalChunks ≤ 2000000 →
      ((decodeHeader (data.take 80)).chunkId : Int) ≠ sx.lastChunkId + 1 →
      cliRecv fs ts sx data =
        ⟨{ ts with currentHeader := decodeHeader (data.take 80) },
          { sx with recvBuf := data.take 80, transferActive := false },
          [.errSequence], -1⟩) ∧
    (cliRecv fsAll {} {} streamIds013).res = -1 ∧
    (cliRecv fsAll {} {} streamIds013).msgs = [.receivingFile, .errSequence] ∧
    (cliRecv fsAll {} {} streamIds013).ts.fileContents = [7, 8] ∧
    (cliRecv fsAll {} {} streamIds013).ts.currentChunk = 2 := by
  refine ⟨?_, by decide, by decide, by decide, by decide⟩
  intro fs ts sx data hexp hbuf hcc hlen hsz hsz0 htot hseq
  unfold cliRecv
  rw [if_neg (fun hand => by omega)]
  have h2 : 2 * data.length = (2 * data.length - 1) + 1 := by omega
  rw [h2]
  exact cliLoop_seq_err fs _ ts sx data hexp hbuf hlen hsz hsz0 htot hcc hseq

/-- C1 witness: a mid-transfer client state (one chunk received, last id 0)
fed a header with id 5 instead of 1. -/
theorem C1_monotonic_ids_witness :
    cliRecv fsAll
        { cstate := CState.receiving, fileOpen := true, fileContents := [7],
          filename := [102], totalChunks := 5, currentChunk := 1 }
        { recvBuf := [], expectingHeader := true, payloadRemaining := 0,
          lastChunkId := 0, transferActive := true }
        (encHeader hdrId5) =
      ⟨{ cstate := CState.receiving, fileOpen := true, fileContents := [7],
          filename := [102], totalChunks := 5, currentChunk := 1,
          currentHeader := decodeHeader ((encHeader hdrId5).take 80) },
        { recvBuf := (encHeader hdrId5).take 80, expectingHeader := true,
          payloadRemaining := 0, lastChunkId := 0, transferActive := false },
        [.errSequence], -1⟩ :=
  C1_monotonic_ids.1 fsAll
    { cstate := CState.receiving, fileOpen := true, fileContents := [7],
      filename := [102], totalChunks := 5, currentChunk := 1 }
    { recvBuf := [], expectingHeader := true, payloadRemaining := 0,
      lastChunkId := 0, transferActive := true }
    (encHeader hdrId5) rfl rfl (by decide) (by decide) (by decide) (by decide)
    (by decide) (by decide)

/-! ## C3 -/

/-- C3 (amended): an out-of-range header is rejected on completion, before
any of its payload is consumed, by the dedicated transfer-mode handlers —
the server's `handle_file_transfer` rejects `chunk_size = 0`,
`chunk_size > 8192`, `total_chunks = 0` and `total_chunks > 2000000`, and
the client's receiver rejects `chunk_size = 0`, `chunk_size > 512` and
`total_chunks > 2000000` — but headers parsed after the first one inside the
server's command-mode detection burst are not validated at all (see the
counterexample). -/
theorem C3_bad_sizes_rejected :
    (∀ (fs : List Nat → Bool) (st : ClientInfo) (data : List Nat),
      st.headerComplete = false → st.headerBuf = [] → 80 ≤ data.length →
      serverHeaderInvalid (decodeHeader (data.take 80)) = true →
      handleFileTransfer fs st data =
        ⟨{ st with
            headerComplete := true,
            currentHeader := decodeHeader (data.take 80),
            headerBuf := data.take 80, state := 0 },
          [.errInvalidHeader], .disconnect⟩) ∧
    (∀ h : FileChunkHeader,
      serverHeaderInvalid h = true ↔
        (h.chunkSize = 0 ∨ h.totalChunks = 0 ∨ 8192 < h.chunkSize ∨
          2000000 < h.totalChunks)) ∧
    (∀ (fs : List Nat → Bool) (ts : TransferState) (sx : RecvStatics) (data : List Nat),
      sx.expectingHeader = true → sx.recvBuf = [] → sx.transferActive = true →
      80 ≤ data.length →
      (512 < (decodeHeader (data.take 80)).chunkSize ∨
        (decodeHeader (data.take 80)).chunkSize = 0) →
      cliRecv fs ts sx data =
        ⟨{ ts with currentHeader := decodeHeader (data.take 80) },
          { sx with recvBuf := data.take 80, transferActive := false },
          [.errInvalidChunkSize], -1⟩) ∧
    (∀ (fs : List Nat → Bool) (ts : TransferState) (sx : RecvStatics) (data : List Nat),
      sx.expectingHeader = true → sx.recvBuf = [] → sx.transferActive = true →
      80 ≤ data.length →
      (decodeHeader (data.take 80)).chunkSize ≤ 512 →
      (decodeHeader (data.take 80)).chunkSize ≠ 0 →
      2000000 < (decodeHeader (data.take 80)).totalChunks →
      cliRecv fs ts sx data =
        ⟨{ ts with currentHeader := decodeHeader (data.take 80) },
          { sx with recvBuf := data.take 80, transferActive := false },
          [.errTooLarge], -1⟩) := by
  refine ⟨?_, ?_, ?_, ?_⟩
  · intro fs st data hhc hbuf hlen hinv
    exact handleFileTransfer_invalid fs st data hhc hbuf hlen hinv
  · intro h
    simp [serverHeaderInvalid]
  · intro fs ts sx data hexp hbuf hact hlen hsz
    unfold cliRecv
    rw [if_neg (fun hand => by rw [hand.2.2] at hact; cases hact)]
    have hlen0 : data ≠ [] := by intro h; subst h; simp at hlen
    have h2 : 2 * data.length = (2 * data.length - 1) + 1 := by
      have : 0 < data.length := List.length_pos.mpr hlen0
      omega
    rw [h2]
    exact cliLoop_size_err fs _ ts sx data hexp hbuf hlen hsz
  · intro fs ts sx data hexp hbuf hact hlen hsz hsz0 htot
    unfold cliRecv
    rw [if_neg (fun hand => by rw [hand.2.2] at hact; cases hact)]
    have hlen0 : data ≠ [] := by intro h; subst h; simp at hlen
    have h2 : 2 * data.length = (2 * data.length - 1) + 1 := by
      have : 0 < data.length := List.length_pos.mpr hlen0
      omega
    rw [h2]
    exact cliLoop_total_err fs _ ts sx data hexp hbuf hlen hsz hsz0 htot

/-- C3 witness: the server handler rejects a concrete oversized header
(`chunk_size = 9000`) with no payload consumed, and the client rejects a
concrete zero-size header. -/
theorem C3_bad_sizes_rejected_witness :
    handleFileTransfer fsAll srvMidTransfer
        (encHeader { chunkId := 2, chunkSize := 9000, totalChunks := 5 }) =
      ⟨{ srvMidTransfer with
          headerComplete := true,
          currentHeader := decodeHeader
            ((encHeader { chunkId := 2, chunkSize := 9000, totalChunks := 5 }).take 80),
          headerBuf :=
            (encHeader { chunkId := 2, chunkSize := 9000, totalChunks := 5 }).take 80,
          state := 0 },
        [.errInvalidHeader], .disconnect⟩ :=
  C3_bad_sizes_rejected.1 fsAll srvMidTransfer
    (encHeader { chunkId := 2, chunkSize := 9000, totalChunks := 5 })
    rfl rfl (by decide) (by decide)

/-! ## C2 -/

theorem srvLoop_bounds (fs : List Nat → Bool) :
    ∀ (fuel : Nat) (st : ClientInfo) (data : List Nat),
      st.state = 1 → st.receivedChunks < st.expectedChunks →
      (((srvLoop fs fuel st data).st.state = 1 →
         (srvLoop fs fuel st data).st.receivedChunks <
           (srvLoop fs fuel st data).st.expectedChunks) ∧
       (∀ r e, SrvMsg.chunkReceived r e ∈ (srvLoop fs fuel st data).msgs → r ≤ e) ∧
       (SrvMsg.successUploaded ∈ (srvLoop fs fuel st data).msgs ↔
         ∃ e, 0 < e ∧ SrvMsg.chunkReceived e e ∈ (srvLoop fs fuel st data).msgs)) := by
  intro fuel
  induction fuel with
  | zero =>
    intro st data h1 hlt
    refine ⟨fun _ => hlt, ?_, ?_⟩
    · intro r e hm; simp [srvLoop] at hm
    · simp [srvLoop]
  | succ n ih =>
    intro st data h1 hlt
    simp only [srvLoop]
    split_ifs with b1 b2 b3 b4 b5 b6 bopen b7 b8 b9 b10
    -- data = []
    · exact ⟨fun _ => hlt, fun r e hm => by simp at hm, by simp⟩
    -- partial header
    · exact ⟨fun _ => hlt, fun r e hm => by simp at hm, by simp⟩
    -- invalid header exit
    · exact ⟨fun h => by simp at h, fun r e hm => by simp at hm, by simp⟩
    -- id-0 header, file opened: recurse
    · refine ih _ _ h1 ?_
      have hb4 := b4
      simp [serverHeaderInvalid] at hb4
      simp
      omega
    -- id-0 header, fopen failed exit
    · exact ⟨fun h => by simp at h, fun r e hm => by simp at hm, by simp⟩
    -- header with nonzero id: recurse
    · exact ih _ _ h1 hlt
    -- payload complete, file open, completion leaf
    · have hb8 : st.expectedChunks ≤ st.receivedChunks + 1 := by simpa using b8
      refine ⟨fun h => by simp at h, ?_, ?_⟩
      · intro r' e' hm
        simp at hm
        obtain ⟨hr, he⟩ := hm
        subst hr; subst he
        omega
      · constructor
        · intro _
          refine ⟨st.expectedChunks, by omega, ?_⟩
          simp
          omega
        · intro _
          simp
    -- payload complete, file open, continue: cons + recurse
    · have hb8 : ¬(st.expectedChunks ≤ st.receivedChunks + 1) := by simpa using b8
      refine ⟨?_, ?_, ?_⟩
      · exact (ih _ _ (by exact h1) (by simp; omega)).1
      · intro r' e' hm
        rcases List.mem_cons.mp hm with h | h
        · injection h with hr he
          subst hr; subst he
          omega
        · exact (ih _ _ (by exact h1) (by simp; omega)).2.1 r' e' h
      · constructor
        · intro hs
          rcases List.mem_cons.mp hs with h | h
          · cases h
          · obtain ⟨e', he', hmem⟩ := ((ih _ _ (by exact h1) (by simp; omega)).2.2).mp h
            exact ⟨e', he', List.mem_cons_of_mem _ hmem⟩
        · rintro ⟨e', he', hmem⟩
          rcases List.mem_cons.mp hmem with h | h
          · injection h with hr he
            rw [hr] at he
            try simp at he
            omega
          · exact List.mem_cons_of_mem _
              (((ih _ _ (by exact h1) (by simp; omega)).2.2).mpr ⟨e', he', h⟩)
    -- payload incomplete, file open
    · exact ⟨fun _ => hlt, fun r e hm => by simp at hm, by simp⟩
    -- payload complete, file not open, completion leaf
    · have hb8 : st.expectedChunks ≤ st.receivedChunks + 1 := by simpa using b10
      refine ⟨fun h => by simp at h, ?_, ?_⟩
      · intro r' e' hm
        simp at hm
        obtain ⟨hr, he⟩ := hm
        subst hr; subst he
        omega
      · constructor
        · intro _
          refine ⟨st.expectedChunks, by omega, ?_⟩
          simp
          omega
        · intro _
          simp
    -- payload complete, file not open, continue
    · have hb8 : ¬(st.expectedChunks ≤ st.receivedChunks + 1) := by simpa using b10
      refine ⟨?_, ?_, ?_⟩
      · exact (ih _ _ (by exact h1) (by simp; omega)).1
      · intro r' e' hm
        rcases List.mem_cons.mp hm with h | h
        · injection h with hr he
          subst hr; subst he
          omega
        · exact (ih _ _ (by exact h1) (by simp; omega)).2.1 r' e' h
      · constructor
        · intro hs
          rcases List.mem_cons.mp hs with h | h
          · cases h
          · obtain ⟨e', he', hmem⟩ := ((ih _ _ (by exact h1) (by simp; omega)).2.2).mp h
            exact ⟨e', he', List.mem_cons_of_mem _ hmem⟩
        · rintro ⟨e', he', hmem⟩
          rcases List.mem_cons.mp hmem with h | h
          · injection h with hr he
            rw [hr] at he
            try simp at he
            omega
          · exact List.mem_cons_of_mem _
              (((ih _ _ (by exact h1) (by simp; omega)).2.2).mpr ⟨e', he', h⟩)
    -- payload incomplete, file not open
    · exact ⟨fun _ => hlt, fun r e hm => by simp at hm, by simp⟩

set_option maxHeartbeats 2000000 in
theorem cliLoop_res_one_complete (fs : List Nat → Bool) :
    ∀ (fuel : Nat) (ts : TransferState) (sx : RecvStatics) (data : List Nat),
      (cliLoop fs fuel ts sx data).res = 1 →
      (cliLoop fs fuel ts sx data).ts.totalChunks ≤
        (cliLoop fs fuel ts sx data).ts.currentChunk := by
  intro fuel
  induction fuel with
  | zero =>
    intro ts sx data h
    simp [cliLoop] at h
  | succ n ih =>
    intro ts sx data h
    simp only [cliLoop] at h ⊢
    split_ifs at h ⊢ with b1 b2 b3 b4 b5 b6 b7 b8 b9 bo b10 b11
    · simp at h
    · simp at h
    · simp at h
    · simp at h
    · simp at h
    · exact ih _ _ _ h
    · simp at h
    · exact ih _ _ _ h
    · exact b10
    · exact ih _ _ _ h
    · exact b11
    · exact ih _ _ _ h
    · simp at h

/-- C2 (amended): the completion test on the receive paths is
`received >= expected` and it is the sole end-of-transfer signal.  For a
server connection whose expected count was recorded from an accepted id-0
header (so `received < expected` holds on entry), the received count never
exceeds the expected count — every `Received chunk r/e` report satisfies
`r <= e` and the invariant is preserved — and `SUCCESS:` is emitted exactly
when the two counts become equal; the client likewise reports completion
only when its chunk count has reached the expected total.  A transfer-mode
connection with no id-0 header keeps `expected = 0` and completes at
`received = 1 > 0` (see the counterexample). -/
theorem C2_counts_and_completion :
    (∀ (fs : List Nat → Bool) (st : ClientInfo) (data : List Nat),
      st.state = 1 → st.receivedChunks < st.expectedChunks →
      (((handleFileTransfer fs st data).st.state = 1 →
         (handleFileTransfer fs st data).st.receivedChunks <
           (handleFileTransfer fs st data).st.expectedChunks) ∧
       (∀ r e, SrvMsg.chunkReceived r e ∈ (handleFileTransfer fs st data).msgs → r ≤ e) ∧
       (SrvMsg.successUploaded ∈ (handleFileTransfer fs st data).msgs ↔
         ∃ e, 0 < e ∧ SrvMsg.chunkReceived e e ∈ (handleFileTransfer fs st data).msgs))) ∧
    (∀ (fs : List Nat → Bool) (ts : TransferState) (sx : RecvStatics) (data : List Nat),
      (cliRecv fs ts sx data).res = 1 →
      (cliRecv fs ts sx data).ts.totalChunks ≤ (cliRecv fs ts sx data).ts.currentChunk) := by
  constructor
  · intro fs st data h1 hlt
    by_cases hd : data = []
    · subst hd
      unfold handleFileTransfer
      rw [if_pos rfl]
      exact ⟨fun h => by simp at h, fun r e hm => by simp at hm, by simp⟩
    · unfold handleFileTransfer
      rw [if_neg hd]
      exact srvLoop_bounds fs (2 * data.length + 2) st data h1 hlt
  · intro fs ts sx data h
    unfold cliRecv at h ⊢
    exact cliLoop_res_one_complete fs _ ts _ data h

/-- C2 witness: a mid-transfer connection (2 of 5 chunks) receives one more
full chunk; the invariant `received < expected` still holds afterwards. -/
theorem C2_counts_and_completion_witness :
    (handleFileTransfer fsAll srvMidTransfer (encHeader hdrId3 ++ [9])).st.receivedChunks <
      (handleFileTransfer fsAll srvMidTransfer (encHeader hdrId3 ++ [9])).st.expectedChunks :=
  ((C2_counts_and_completion.1 fsAll srvMidTransfer (encHeader hdrId3 ++ [9])
    rfl (by decide)).1) (by decide)

/-! ## C5 -/

theorem updateClient_of_none :
    ∀ (l : List ClientInfo) (s : ClientInfo),
      (∀ c0 ∈ l, c0.fd ≠ s.fd) → updateClient l s = l := by
  intro l s
  induction l with
  | nil => intro _; rfl
  | cons h t ih =>
    intro hmem
    unfold updateClient
    simp only [List.map_cons]
    rw [if_neg (hmem h (by simp))]
    have := ih (fun c0 hc0 => hmem c0 (List.mem_cons_of_mem _ hc0))
    unfold updateClient at this
    rw [this]

theorem findClient_none_of_not_mem :
    ∀ (l : List ClientInfo) (fd : Nat),
      (∀ c0 ∈ l, c0.fd ≠ fd) → findClient l fd = none := by
  intro l fd
  induction l with
  | nil => intro _; rfl
  | cons h t ih =>
    intro hmem
    unfold findClient
    rw [List.find?_cons_of_neg _ (by simpa using hmem h (by simp))]
    have := ih (fun c0 hc0 => hmem c0 (List.mem_cons_of_mem _ hc0))
    unfold findClient at this
    exact this

theorem removeClient_updateClient :
    ∀ (l : List ClientInfo) (s : ClientInfo) (fd : Nat) (c : ClientInfo),
      s.fd = fd → findClient l fd = some c → (l.map ClientInfo.fd).Nodup →
      (removeClient (updateClient l s) fd).2 =
        (if s.uploadOpen = true then [SrvMsg.closedFile] else []) ∧
      findClient (removeClient (updateClient l s) fd).1 fd = none := by
  intro l
  induction l with
  | nil =>
    intro s fd c _ hfind _
    simp [findClient] at hfind
  | cons h t ih =>
    intro s fd c hs hfind hnd
    by_cases hh : h.fd = fd
    · have hupd : updateClient (h :: t) s = s :: updateClient t s := by
        unfold updateClient
        simp only [List.map_cons]
        rw [if_pos (by rw [hh, hs])]
      have htno : ∀ c0 ∈ t, c0.fd ≠ fd := by
        intro c0 hc0 hc0fd
        simp only [List.map_cons, List.nodup_cons] at hnd
        exact hnd.1 (hh ▸ hc0fd ▸ List.mem_map_of_mem ClientInfo.fd hc0)
      have htupd : updateClient t s = t :=
        updateClient_of_none t s (fun c0 hc0 => hs ▸ htno c0 hc0)
      rw [hupd, htupd]
      unfold removeClient
      rw [if_pos hs]
      exact ⟨rfl, findClient_none_of_not_mem t fd htno⟩
    · have hupd : updateClient (h :: t) s = h :: updateClient t s := by
        unfold updateClient
        simp only [List.map_cons]
        rw [if_neg (by rw [hs]; exact hh)]
      have hfind' : findClient t fd = some c := by
        unfold findClient at hfind ⊢
        rwa [List.find?_cons_of_neg _ (by simpa using hh)] at hfind
      have hnd' : (t.map ClientInfo.fd).Nodup := by
        simp only [List.map_cons, List.nodup_cons] at hnd
        exact hnd.2
      obtain ⟨ih1, ih2⟩ := ih s fd c hs hfind' hnd'
      rw [hupd]
      unfold removeClient
      rw [if_neg hh]
      refine ⟨ih1, ?_⟩
      unfold findClient
      rw [List.find?_cons_of_neg _ (by simpa using hh)]
      exact ih2

/-- C5 (amended): a transfer validation failure tears the transfer down and
the engine stops consuming — but the two sides land differently.  On the
server an invalid header makes `handle_file_transfer` return `-1`, and the
event loop then removes the connection from the client table (closing its
open upload file during removal) and closes the socket, so the connection is
disconnected rather than returned to Command mode.  On the client any
receive error closes the file and resets the transfer state to the idle
Command state, printing the failure. -/
theorem C5_failure_teardown :
    (∀ (fs : List Nat → Bool) (clients : List ClientInfo) (fd : Nat) (c : ClientInfo)
        (data : List Nat),
      findClient clients fd = some c → (clients.map ClientInfo.fd).Nodup →
      c.state = 1 → c.headerComplete = false → c.headerBuf = [] → 80 ≤ data.length →
      serverHeaderInvalid (decodeHeader (data.take 80)) = true →
      findClient (serverReactData fs clients fd data).1 fd = none ∧
      (serverReactData fs clients fd data).2 =
        .errInvalidHeader :: (if c.uploadOpen = true then [SrvMsg.closedFile] else [])) ∧
    (∀ (fs : List Nat → Bool) (n : CliNet) (data : List Nat),
      n.ts.cstate = .receiving → data ≠ [] → (cliRecv fs n.ts n.sx data).res = -1 →
      (clientHandleSocketData fs n data).1.ts = initTransferState ∧
      (clientHandleSocketData fs n data).1.ts.fileOpen = false ∧
      (clientHandleSocketData fs n data).1.ts.cstate = .command ∧
      CliMsg.downloadFailed ∈ (clientHandleSocketData fs n data).2) := by
  constructor
  · intro fs clients fd c data hfind hnd hstate hhc hbuf hlen hinv
    have hcfd : c.fd = fd := by
      have := List.find?_some hfind
      simpa using this
    have hstep : handleClientData fs c data =
        ⟨{ c with
            headerComplete := true,
            currentHeader := decodeHeader (data.take 80),
            headerBuf := data.take 80, state := 0 },
          [.errInvalidHeader], .disconnect⟩ := by
      unfold handleClientData
      rw [hstate]
      rw [if_pos rfl]
      exact handleFileTransfer_invalid fs c data hhc hbuf hlen hinv
    unfold serverReactData
    rw [hfind]
    dsimp only
    rw [hstep]
    dsimp only
    have hr := removeClient_updateClient clients
      { c with
        headerComplete := true,
        currentHeader := decodeHeader (data.take 80),
        headerBuf := data.take 80, state := 0 }
      fd c hcfd hfind hnd
    exact ⟨hr.2, by rw [hr.1]; rfl⟩
  · intro fs n data hrecv hne hres
    unfold clientHandleSocketData
    rw [if_neg hne, if_pos hrecv]
    rw [if_neg (by rw [hres]; decide), if_pos hres]
    exact ⟨rfl, rfl, rfl, by simp⟩

/-- C5 witness: the server part applied to a one-client registry receiving a
zero-size header mid-transfer, and the client part applied to a
sequence-violating stream. -/
theorem C5_failure_teardown_witness :
    (findClient (serverReactData fsAll [srvMidTransfer] 3 (encHeader hdrBadSize)).1 3 = none ∧
      (serverReactData fsAll [srvMidTransfer] 3 (encHeader hdrBadSize)).2 =
        .errInvalidHeader ::
          (if srvMidTransfer.uploadOpen = true then [SrvMsg.closedFile] else [])) ∧
    ((clientHandleSocketData fsAll
        { ts := { cstate := .receiving, fileOpen := true, totalChunks := 5, currentChunk := 1 },
          sx := { recvBuf := [], expectingHeader := true, payloadRemaining := 0,
                  lastChunkId := 0, transferActive := true } }
        (encHeader hdrId5)).1.ts = initTransferState ∧
      (clientHandleSocketData fsAll
        { ts := { cstate := .receiving, fileOpen := true, totalChunks := 5, currentChunk := 1 },
          sx := { recvBuf := [], expectingHeader := true, payloadRemaining := 0,
                  lastChunkId := 0, transferActive := true } }
        (encHeader hdrId5)).1.ts.fileOpen = false ∧
      (clientHandleSocketData fsAll
        { ts := { cstate := .receiving, fileOpen := true, totalChunks := 5, currentChunk := 1 },
          sx := { recvBuf := [], expectingHeader := true, payloadRemaining := 0,
                  lastChunkId := 0, transferActive := true } }
        (encHeader hdrId5)).1.ts.cstate = .command ∧
      CliMsg.downloadFailed ∈
        (clientHandleSocketData fsAll
          { ts := { cstate := .receiving, fileOpen := true, totalChunks := 5, currentChunk := 1 },
            sx := { recvBuf := [], expectingHeader := true, payloadRemaining := 0,
                    lastChunkId := 0, transferActive := true } }
          (encHeader hdrId5)).2) :=
  ⟨C5_failure_teardown.1 fsAll [srvMidTransfer] 3 srvMidTransfer (encHeader hdrBadSize)
      (by decide) (by decide) rfl rfl rfl (by decide) (by decide),
   C5_failure_teardown.2 fsAll
      { ts := { cstate := .receiving, fileOpen := true, totalChunks := 5, currentChunk := 1 },
        sx := { recvBuf := [], expectingHeader := true, payloadRemaining := 0,
                lastChunkId := 0, transferActive := true } }
      (encHeader hdrId5) rfl (by decide) (by decide)⟩

end FtpCore
